import Mathlib

/-!
Shallow embedding of `src/Renderer/AAPLShaderTypes.h`: the shared CPU/GPU
declarations header of the EncodingIndirectCommandBuffersOnTheCPU sample.
The header declares two record layouts (`AAPLVertex`, `AAPLUniforms`),
four enumerated binding registries and the `AAPLNumShapes` constant.

The records are built from the Apple `<simd/simd.h>` types.  Under the
clang extended-vector layout rules used by that header:
  * `vector_float3` is stored in four 32-bit lanes: size 16, alignment 16;
  * `packed_float2` is two tightly packed 32-bit floats: size 8, alignment 4;
  * `matrix_float4x4` is four 16-byte `vector_float4` columns: size 64,
    alignment 16;
  * `matrix_float3x3` is three columns, each a `vector_float3` padded to
    16 bytes: size 48, alignment 16.
A C struct is laid out by placing each field at the next offset that is a
multiple of the field's alignment, and the struct size is the end offset
rounded up to the struct alignment (the maximum field alignment).
C enums assign each enumerator its explicit initializer when present, the
value 0 to a first enumerator without an initializer, and one more than
the previous enumerator otherwise.
-/

/-- The `<simd/simd.h>` field types used by the header. -/
inductive CType where
  | vector_float3
  | packed_float2
  | matrix_float4x4
  | matrix_float3x3
  deriving DecidableEq

/-- Size in bytes of each field type, per the simd layout rules above. -/
def CType.sizeof : CType → Nat
  | .vector_float3 => 16
  | .packed_float2 => 8
  | .matrix_float4x4 => 64
  | .matrix_float3x3 => 48

/-- Alignment in bytes of each field type, per the simd layout rules above. -/
def CType.alignof : CType → Nat
  | .vector_float3 => 16
  | .packed_float2 => 4
  | .matrix_float4x4 => 16
  | .matrix_float3x3 => 16

/-- Round `off` up to the next multiple of `a`. -/
def alignUp (off a : Nat) : Nat := (off + a - 1) / a * a

/-- Offsets of a list of struct fields, starting from offset `off`:
each field goes at the next suitably aligned offset. -/
def fieldOffsets : List CType → Nat → List Nat
  | [], _ => []
  | t :: ts, off => alignUp off t.alignof :: fieldOffsets ts (alignUp off t.alignof + t.sizeof)

/-- End offset (one past the last field) of a list of struct fields laid
out from offset `off`. -/
def structEnd : List CType → Nat → Nat
  | [], off => off
  | t :: ts, off => structEnd ts (alignUp off t.alignof + t.sizeof)

/-- Alignment of a struct: the maximum alignment of its fields. -/
def structAlign (ts : List CType) : Nat := ts.foldr (fun t a => max t.alignof a) 1

/-- Size of a struct (its stride when arrayed): the end offset of its
fields rounded up to the struct alignment. -/
def structSize (ts : List CType) : Nat := alignUp (structEnd ts 0) (structAlign ts)

/-- The fields of `AAPLVertex`, in declaration order:
`vector_float3 position; packed_float2 texcoord;`. -/
def AAPLVertex.fields : List CType := [.vector_float3, .packed_float2]

/-- The fields of `AAPLUniforms`, in declaration order: `vector_float3
cameraPos; matrix_float4x4 modelMatrix; matrix_float4x4
modelViewProjectionMatrix; matrix_float3x3 normalMatrix;`. -/
def AAPLUniforms.fields : List CType :=
  [.vector_float3, .matrix_float4x4, .matrix_float4x4, .matrix_float3x3]

/-- `#define AAPLNumShapes 16`. -/
def AAPLNumShapes : Nat := 16

/-- C enumerator value assignment: an explicit initializer is taken as
is, otherwise the enumerator gets `next` (one more than its predecessor,
or 0 at the start). -/
def enumValuesFrom : List (Option Int) → Int → List Int
  | [], _ => []
  | i :: rest, next => i.getD next :: enumValuesFrom rest (i.getD next + 1)

/-- Values of a C enum given the (optional) initializer of each
enumerator in declaration order. -/
def enumValues (inits : List (Option Int)) : List Int := enumValuesFrom inits 0

/-- Initializers of `enum AAPLBufferIndex`:
`AAPLBufferIndexVertices = 0, AAPLBufferIndexUniforms = 1`. -/
def AAPLBufferIndex.inits : List (Option Int) := [some 0, some 1]

/-- Enumerator values of `AAPLBufferIndex`. -/
def AAPLBufferIndex.values : List Int := enumValues AAPLBufferIndex.inits

def AAPLBufferIndexVertices : Int := AAPLBufferIndex.values.getD 0 0

def AAPLBufferIndexUniforms : Int := AAPLBufferIndex.values.getD 1 0

/-- Initializers of `enum AAPLTextureIndex`: `AAPLTextureIndexBaseColor = 0`. -/
def AAPLTextureIndex.inits : List (Option Int) := [some 0]

/-- Enumerator values of `AAPLTextureIndex`. -/
def AAPLTextureIndex.values : List Int := enumValues AAPLTextureIndex.inits

def AAPLTextureIndexBaseColor : Int := AAPLTextureIndex.values.getD 0 0

/-- Initializers of `enum AAPLArgumentBufferBufferID`: the first four
enumerators have no initializer, the fifth is
`AAPLArgumentBufferIDVertexNumBuffer = 50`. -/
def AAPLArgumentBufferBufferID.inits : List (Option Int) :=
  [none, none, none, none, some 50]

/-- Enumerator values of `AAPLArgumentBufferBufferID`. -/
def AAPLArgumentBufferBufferID.values : List Int :=
  enumValues AAPLArgumentBufferBufferID.inits

def AAPLArgumentBufferIDICB : Int := AAPLArgumentBufferBufferID.values.getD 0 0

def AAPLArgumentBufferIDUniformBuffer : Int := AAPLArgumentBufferBufferID.values.getD 1 0

def AAPLArgumentBufferIDDepth : Int := AAPLArgumentBufferBufferID.values.getD 2 0

def AAPLArgumentBufferIDVertexBuffer : Int := AAPLArgumentBufferBufferID.values.getD 3 0

def AAPLArgumentBufferIDVertexNumBuffer : Int := AAPLArgumentBufferBufferID.values.getD 4 0

/-- Initializers of `enum AAPLVertexBufferIndex`: the single enumerator
`AAPLVertexBufferIndexArgument` has no initializer. -/
def AAPLVertexBufferIndex.inits : List (Option Int) := [none]

/-- Enumerator values of `AAPLVertexBufferIndex`. -/
def AAPLVertexBufferIndex.values : List Int := enumValues AAPLVertexBufferIndex.inits

def AAPLVertexBufferIndexArgument : Int := AAPLVertexBufferIndex.values.getD 0 0

/-!
Byte-level model of the two records.  A single-precision float field is
modelled by its 32-bit pattern (a `Nat` below `2 ^ 32`); serialization
writes the bytes of each 32-bit word little-endian at the offsets the
layout above dictates, with padding lanes written as zero, and
deserialization reads the 32-bit word stored at each field's offset.
-/

/-- The 32-bit patterns of a record's floats are below `2 ^ 32`. -/
def isF32 (x : Nat) : Prop := x < 2 ^ 32

instance (x : Nat) : Decidable (isF32 x) := Nat.decLt x (2 ^ 32)

/-- Little-endian bytes of a 32-bit word. -/
def f32ToBytes (x : Nat) : List Nat :=
  [x % 256, x / 256 % 256, x / 65536 % 256, x / 16777216 % 256]

/-- 32-bit word held by four little-endian bytes. -/
def f32FromBytes (b : List Nat) : Nat :=
  b.getD 0 0 + b.getD 1 0 * 256 + b.getD 2 0 * 65536 + b.getD 3 0 * 16777216

/-- Read the 32-bit word stored at byte offset `off`. -/
def readF32 (b : List Nat) (off : Nat) : Nat := f32FromBytes ((b.drop off).take 4)

/-- A `vector_float3` or `packed_float3` value: three 32-bit patterns. -/
abbrev Float3 := Nat × Nat × Nat

/-- A `packed_float2` value: two 32-bit patterns. -/
abbrev Float2 := Nat × Nat

/-- A `vector_float4` value: four 32-bit patterns. -/
abbrev Float4 := Nat × Nat × Nat × Nat

/-- A `matrix_float4x4` value: four `vector_float4` columns. -/
abbrev Float4x4 := Float4 × Float4 × Float4 × Float4

/-- A `matrix_float3x3` value: three `vector_float3` columns. -/
abbrev Float3x3 := Float3 × Float3 × Float3

/-- The `AAPLVertex` record: `vector_float3 position; packed_float2
texcoord;`, each float given by its 32-bit pattern. -/
structure AAPLVertex where
  position : Float3
  texcoord : Float2

/-- The `AAPLUniforms` record: `vector_float3 cameraPos; matrix_float4x4
modelMatrix; matrix_float4x4 modelViewProjectionMatrix; matrix_float3x3
normalMatrix;`, each float given by its 32-bit pattern. -/
structure AAPLUniforms where
  cameraPos : Float3
  modelMatrix : Float4x4
  modelViewProjectionMatrix : Float4x4
  normalMatrix : Float3x3

/-- The 32-bit lanes of a `vector_float4` column. -/
def Float4.words (c : Float4) : List Nat := [c.1, c.2.1, c.2.2.1, c.2.2.2]

/-- The 32-bit lanes of a `vector_float3` column padded to 16 bytes: the
fourth lane is padding. -/
def Float3.words (c : Float3) : List Nat := [c.1, c.2.1, c.2.2, 0]

/-- The 32-bit lanes of a `matrix_float4x4`, column by column. -/
def Float4x4.words (m : Float4x4) : List Nat :=
  m.1.words ++ m.2.1.words ++ m.2.2.1.words ++ m.2.2.2.words

/-- The 32-bit lanes of a `matrix_float3x3`, column by column, each
column padded to 16 bytes. -/
def Float3x3.words (m : Float3x3) : List Nat :=
  m.1.words ++ m.2.1.words ++ m.2.2.words

/-- The 32-bit lanes of an `AAPLVertex` under its declared layout:
`position` occupies the 16-byte slot at offset 0 (fourth lane padding),
`texcoord` sits tightly packed at offset 16, and the record is padded to
its 32-byte stride. -/
def AAPLVertex.words (v : AAPLVertex) : List Nat :=
  [v.position.1, v.position.2.1, v.position.2.2, 0, v.texcoord.1, v.texcoord.2, 0, 0]

/-- The 32-bit lanes of an `AAPLUniforms` under its declared layout:
`cameraPos` occupies the 16-byte slot at offset 0, the matrices follow at
offsets 16, 80 and 144. -/
def AAPLUniforms.words (u : AAPLUniforms) : List Nat :=
  [u.cameraPos.1, u.cameraPos.2.1, u.cameraPos.2.2, 0] ++
    u.modelMatrix.words ++ u.modelViewProjectionMatrix.words ++ u.normalMatrix.words

/-- Serialize an `AAPLVertex` to its 32-byte representation. -/
def AAPLVertex.toBytes (v : AAPLVertex) : List Nat := v.words.flatMap f32ToBytes

/-- Serialize an `AAPLUniforms` to its 192-byte representation. -/
def AAPLUniforms.toBytes (u : AAPLUniforms) : List Nat := u.words.flatMap f32ToBytes

/-- Reinterpret bytes as an `AAPLVertex`: `position` is read at offset 0,
`texcoord` at offset 16. -/
def AAPLVertex.ofBytes (b : List Nat) : AAPLVertex where
  position := (readF32 b 0, readF32 b 4, readF32 b 8)
  texcoord := (readF32 b 16, readF32 b 20)

/-- Read the `vector_float4` column stored at byte offset `off`. -/
def readFloat4 (b : List Nat) (off : Nat) : Float4 :=
  (readF32 b off, readF32 b (off + 4), readF32 b (off + 8), readF32 b (off + 12))

/-- Read the `vector_float3` column stored at byte offset `off`. -/
def readFloat3 (b : List Nat) (off : Nat) : Float3 :=
  (readF32 b off, readF32 b (off + 4), readF32 b (off + 8))

/-- Read the `matrix_float4x4` stored at byte offset `off`: four 16-byte
columns. -/
def readFloat4x4 (b : List Nat) (off : Nat) : Float4x4 :=
  (readFloat4 b off, readFloat4 b (off + 16), readFloat4 b (off + 32), readFloat4 b (off + 48))

/-- Read the `matrix_float3x3` stored at byte offset `off`: three
columns, each padded to 16 bytes. -/
def readFloat3x3 (b : List Nat) (off : Nat) : Float3x3 :=
  (readFloat3 b off, readFloat3 b (off + 16), readFloat3 b (off + 32))

/-- Reinterpret bytes as an `AAPLUniforms`: `cameraPos` is read at offset
0, the matrices at offsets 16, 80 and 144. -/
def AAPLUniforms.ofBytes (b : List Nat) : AAPLUniforms where
  cameraPos := readFloat3 b 0
  modelMatrix := readFloat4x4 b 16
  modelViewProjectionMatrix := readFloat4x4 b 80
  normalMatrix := readFloat3x3 b 144

/-- An `AAPLVertex` is well formed when all its lanes are 32-bit
patterns. -/
abbrev AAPLVertex.wf (v : AAPLVertex) : Prop := ∀ w ∈ v.words, w < 2 ^ 32

/-- An `AAPLUniforms` is well formed when all its lanes are 32-bit
patterns. -/
abbrev AAPLUniforms.wf (u : AAPLUniforms) : Prop := ∀ w ∈ u.words, w < 2 ^ 32

/-- Reading the word at offset `4 * i` of a serialized word list recovers
the `i`-th word. -/
theorem readF32_flatMap (ws : List Nat) (hw : ∀ w ∈ ws, w < 2 ^ 32) :
    ∀ i, i < ws.length → readF32 (ws.flatMap f32ToBytes) (4 * i) = ws.getD i 0 := by
  induction ws with
  | nil => intro i hi; simp at hi
  | cons w ws ih =>
    intro i hi
    cases i with
    | zero =>
      have hwlt : w < 2 ^ 32 := hw w (List.mem_cons_self _ _)
      have hval : readF32 ((w :: ws).flatMap f32ToBytes) (4 * 0) =
          w % 256 + w / 256 % 256 * 256 + w / 65536 % 256 * 65536 +
            w / 16777216 % 256 * 16777216 := rfl
      rw [hval]
      show _ = w
      omega
    | succ i =>
      have hstep : readF32 ((w :: ws).flatMap f32ToBytes) (4 * (i + 1)) =
          readF32 (ws.flatMap f32ToBytes) (4 * i) := by
        rw [show 4 * (i + 1) = 4 * i + 4 by ring]
        rfl
      rw [hstep]
      have hlen : i < ws.length := by
        simp only [List.length_cons] at hi
        omega
      exact ih (fun x hx => hw x (List.mem_cons_of_mem _ hx)) i hlen

/-- Serializing an `AAPLVertex` and reinterpreting the bytes recovers the
record. -/
theorem vertexRoundtrip (v : AAPLVertex) (h : v.wf) :
    AAPLVertex.ofBytes v.toBytes = v := by
  have hr := readF32_flatMap v.words h
  have e0 : readF32 v.toBytes 0 = v.position.1 := hr 0 (by simp [AAPLVertex.words])
  have e1 : readF32 v.toBytes 4 = v.position.2.1 := hr 1 (by simp [AAPLVertex.words])
  have e2 : readF32 v.toBytes 8 = v.position.2.2 := hr 2 (by simp [AAPLVertex.words])
  have e4 : readF32 v.toBytes 16 = v.texcoord.1 := hr 4 (by simp [AAPLVertex.words])
  have e5 : readF32 v.toBytes 20 = v.texcoord.2 := hr 5 (by simp [AAPLVertex.words])
  simp only [AAPLVertex.ofBytes]
  rw [e0, e1, e2, e4, e5]
/-- Serializing an `AAPLUniforms` and reinterpreting the bytes recovers
the record. -/
theorem uniformsRoundtrip (u : AAPLUniforms) (h : u.wf) :
    AAPLUniforms.ofBytes u.toBytes = u := by
  have hr := readF32_flatMap u.words h
  have e0 : readF32 u.toBytes 0 = u.cameraPos.1 :=
    hr 0 (by simp [AAPLUniforms.words, Float4x4.words, Float4.words, Float3x3.words, Float3.words])
  have e1 : readF32 u.toBytes 4 = u.cameraPos.2.1 :=
    hr 1 (by simp [AAPLUniforms.words, Float4x4.words, Float4.words, Float3x3.words, Float3.words])
  have e2 : readF32 u.toBytes 8 = u.cameraPos.2.2 :=
    hr 2 (by simp [AAPLUniforms.words, Float4x4.words, Float4.words, Float3x3.words, Float3.words])
  have e3 : readF32 u.toBytes 16 = u.modelMatrix.1.1 :=
    hr 4 (by simp [AAPLUniforms.words, Float4x4.words, Float4.words, Float3x3.words, Float3.words])
  have e4 : readF32 u.toBytes 20 = u.modelMatrix.1.2.1 :=
    hr 5 (by simp [AAPLUniforms.words, Float4x4.words, Float4.words, Float3x3.words, Float3.words])
  have e5 : readF32 u.toBytes 24 = u.modelMatrix.1.2.2.1 :=
    hr 6 (by simp [AAPLUniforms.words, Float4x4.words, Float4.words, Float3x3.words, Float3.words])
  have e6 : readF32 u.toBytes 28 = u.modelMatrix.1.2.2.2 :=
    hr 7 (by simp [AAPLUniforms.words, Float4x4.words, Float4.words, Float3x3.words, Float3.words])
  have e7 : readF32 u.toBytes 32 = u.modelMatrix.2.1.1 :=
    hr 8 (by simp [AAPLUniforms.words, Float4x4.words, Float4.words, Float3x3.words, Float3.words])
  have e8 : readF32 u.toBytes 36 = u.modelMatrix.2.1.2.1 :=
    hr 9 (by simp [AAPLUniforms.words, Float4x4.words, Float4.words, Float3x3.words, Float3.words])
  have e9 : readF32 u.toBytes 40 = u.modelMatrix.2.1.2.2.1 :=
    hr 10 (by simp [AAPLUniforms.words, Float4x4.words, Float4.words, Float3x3.words, Float3.words])
  have e10 : readF32 u.toBytes 44 = u.modelMatrix.2.1.2.2.2 :=
    hr 11 (by simp [AAPLUniforms.words, Float4x4.words, Float4.words, Float3x3.words, Float3.words])
  have e11 : readF32 u.toBytes 48 = u.modelMatrix.2.2.1.1 :=
    hr 12 (by simp [AAPLUniforms.words, Float4x4.words, Float4.words, Float3x3.words, Float3.words])
  have e12 : readF32 u.toBytes 52 = u.modelMatrix.2.2.1.2.1 :=
    hr 13 (by simp [AAPLUniforms.words, Float4x4.words, Float4.words, Float3x3.words, Float3.words])
  have e13 : readF32 u.toBytes 56 = u.modelMatrix.2.2.1.2.2.1 :=
    hr 14 (by simp [AAPLUniforms.words, Float4x4.words, Float4.words, Float3x3.words, Float3.words])
  have e14 : readF32 u.toBytes 60 = u.modelMatrix.2.2.1.2.2.2 :=
    hr 15 (by simp [AAPLUniforms.words, Float4x4.words, Float4.words, Float3x3.words, Float3.words])
  have e15 : readF32 u.toBytes 64 = u.modelMatrix.2.2.2.1 :=
    hr 16 (by simp [AAPLUniforms.words, Float4x4.words, Float4.words, Float3x3.words, Float3.words])
  have e16 : readF32 u.toBytes 68 = u.modelMatrix.2.2.2.2.1 :=
    hr 17 (by simp [AAPLUniforms.words, Float4x4.words, Float4.words, Float3x3.words, Float3.words])
  have e17 : readF32 u.toBytes 72 = u.modelMatrix.2.2.2.2.2.1 :=
    hr 18 (by simp [AAPLUniforms.words, Float4x4.words, Float4.words, Float3x3.words, Float3.words])
  have e18 : readF32 u.toBytes 76 = u.modelMatrix.2.2.2.2.2.2 :=
    hr 19 (by simp [AAPLUniforms.words, Float4x4.words, Float4.words, Float3x3.words, Float3.words])
  have e19 : readF32 u.toBytes 80 = u.modelViewProjectionMatrix.1.1 :=
    hr 20 (by simp [AAPLUniforms.words, Float4x4.words, Float4.words, Float3x3.words, Float3.words])
  have e20 : readF32 u.toBytes 84 = u.modelViewProjectionMatrix.1.2.1 :=
    hr 21 (by simp [AAPLUniforms.words, Float4x4.words, Float4.words, Float3x3.words, Float3.words])
  have e21 : readF32 u.toBytes 88 = u.modelViewProjectionMatrix.1.2.2.1 :=
    hr 22 (by simp [AAPLUniforms.words, Float4x4.words, Float4.words, Float3x3.words, Float3.words])
  have e22 : readF32 u.toBytes 92 = u.modelViewProjectionMatrix.1.2.2.2 :=
    hr 23 (by simp [AAPLUniforms.words, Float4x4.words, Float4.words, Float3x3.words, Float3.words])
  have e23 : readF32 u.toBytes 96 = u.modelViewProjectionMatrix.2.1.1 :=
    hr 24 (by simp [AAPLUniforms.words, Float4x4.words, Float4.words, Float3x3.words, Float3.words])
  have e24 : readF32 u.toBytes 100 = u.modelViewProjectionMatrix.2.1.2.1 :=
    hr 25 (by simp [AAPLUniforms.words, Float4x4.words, Float4.words, Float3x3.words, Float3.words])
  have e25 : readF32 u.toBytes 104 = u.modelViewProjectionMatrix.2.1.2.2.1 :=
    hr 26 (by simp [AAPLUniforms.words, Float4x4.words, Float4.words, Float3x3.words, Float3.words])
  have e26 : readF32 u.toBytes 108 = u.modelViewProjectionMatrix.2.1.2.2.2 :=
    hr 27 (by simp [AAPLUniforms.words, Float4x4.words, Float4.words, Float3x3.words, Float3.words])
  have e27 : readF32 u.toBytes 112 = u.modelViewProjectionMatrix.2.2.1.1 :=
    hr 28 (by simp [AAPLUniforms.words, Float4x4.words, Float4.words, Float3x3.words, Float3.words])
  have e28 : readF32 u.toBytes 116 = u.modelViewProjectionMatrix.2.2.1.2.1 :=
    hr 29 (by simp [AAPLUniforms.words, Float4x4.words, Float4.words, Float3x3.words, Float3.words])
  have e29 : readF32 u.toBytes 120 = u.modelViewProjectionMatrix.2.2.1.2.2.1 :=
    hr 30 (by simp [AAPLUniforms.words, Float4x4.words, Float4.words, Float3x3.words, Float3.words])
  have e30 : readF32 u.toBytes 124 = u.modelViewProjectionMatrix.2.2.1.2.2.2 :=
    hr 31 (by simp [AAPLUniforms.words, Float4x4.words, Float4.words, Float3x3.words, Float3.words])
  have e31 : readF32 u.toBytes 128 = u.modelViewProjectionMatrix.2.2.2.1 :=
    hr 32 (by simp [AAPLUniforms.words, Float4x4.words, Float4.words, Float3x3.words, Float3.words])
  have e32 : readF32 u.toBytes 132 = u.modelViewProjectionMatrix.2.2.2.2.1 :=
    hr 33 (by simp [AAPLUniforms.words, Float4x4.words, Float4.words, Float3x3.words, Float3.words])
  have e33 : readF32 u.toBytes 136 = u.modelViewProjectionMatrix.2.2.2.2.2.1 :=
    hr 34 (by simp [AAPLUniforms.words, Float4x4.words, Float4.words, Float3x3.words, Float3.words])
  have e34 : readF32 u.toBytes 140 = u.modelViewProjectionMatrix.2.2.2.2.2.2 :=
    hr 35 (by simp [AAPLUniforms.words, Float4x4.words, Float4.words, Float3x3.words, Float3.words])
  have e35 : readF32 u.toBytes 144 = u.normalMatrix.1.1 :=
    hr 36 (by simp [AAPLUniforms.words, Float4x4.words, Float4.words, Float3x3.words, Float3.words])
  have e36 : readF32 u.toBytes 148 = u.normalMatrix.1.2.1 :=
    hr 37 (by simp [AAPLUniforms.words, Float4x4.words, Float4.words, Float3x3.words, Float3.words])
  have e37 : readF32 u.toBytes 152 = u.normalMatrix.1.2.2 :=
    hr 38 (by simp [AAPLUniforms.words, Float4x4.words, Float4.words, Float3x3.words, Float3.words])
  have e38 : readF32 u.toBytes 160 = u.normalMatrix.2.1.1 :=
    hr 40 (by simp [AAPLUniforms.words, Float4x4.words, Float4.words, Float3x3.words, Float3.words])
  have e39 : readF32 u.toBytes 164 = u.normalMatrix.2.1.2.1 :=
    hr 41 (by simp [AAPLUniforms.words, Float4x4.words, Float4.words, Float3x3.words, Float3.words])
  have e40 : readF32 u.toBytes 168 = u.normalMatrix.2.1.2.2 :=
    hr 42 (by simp [AAPLUniforms.words, Float4x4.words, Float4.words, Float3x3.words, Float3.words])
  have e41 : readF32 u.toBytes 176 = u.normalMatrix.2.2.1 :=
    hr 44 (by simp [AAPLUniforms.words, Float4x4.words, Float4.words, Float3x3.words, Float3.words])
  have e42 : readF32 u.toBytes 180 = u.normalMatrix.2.2.2.1 :=
    hr 45 (by simp [AAPLUniforms.words, Float4x4.words, Float4.words, Float3x3.words, Float3.words])
  have e43 : readF32 u.toBytes 184 = u.normalMatrix.2.2.2.2 :=
    hr 46 (by simp [AAPLUniforms.words, Float4x4.words, Float4.words, Float3x3.words, Float3.words])
  simp only [AAPLUniforms.ofBytes, readFloat4x4, readFloat4, readFloat3x3, readFloat3,
    Nat.reduceAdd]
  rw [e0, e1, e2, e3, e4, e5, e6, e7, e8, e9, e10, e11, e12, e13, e14, e15, e16, e17, e18, e19, e20, e21, e22, e23, e24, e25, e26, e27, e28, e29, e30, e31, e32, e33, e34, e35, e36, e37, e38, e39, e40, e41, e42, e43]

/-- A vertex with `position = (1, 2, 3)` and `texcoord = (0.25, 0.75)`,
each float given by its IEEE-754 single-precision bit pattern. -/
def exampleVertex : AAPLVertex where
  position := (0x3F800000, 0x40000000, 0x40400000)
  texcoord := (0x3E800000, 0x3F400000)

/-- The identity `matrix_float4x4`: diagonal lanes hold the bit pattern
of 1.0f. -/
def identityFloat4x4 : Float4x4 :=
  ((0x3F800000, 0, 0, 0), (0, 0x3F800000, 0, 0),
    (0, 0, 0x3F800000, 0), (0, 0, 0, 0x3F800000))

/-- The identity `matrix_float3x3`: diagonal lanes hold the bit pattern
of 1.0f. -/
def identityFloat3x3 : Float3x3 :=
  ((0x3F800000, 0, 0), (0, 0x3F800000, 0), (0, 0, 0x3F800000))

/-- A uniforms record with identity matrices. -/
def identityUniforms : AAPLUniforms where
  cameraPos := (0, 0, 0)
  modelMatrix := identityFloat4x4
  modelViewProjectionMatrix := identityFloat4x4
  normalMatrix := identityFloat3x3

/-- C1 counterexample: in `AAPLVertex` the offset of `texcoord` (the
second field) is not 12 — `vector_float3 position` occupies 16 bytes, so
`texcoord` sits at offset 16. -/
theorem vertex_texcoord_offset_not_twelve :
    (fieldOffsets AAPLVertex.fields 0).getD 1 0 ≠ 12 := by decide

/-- C1 (amended): in `AAPLVertex` the fields appear in the order
`position` (a `vector_float3`) then `texcoord` (a tightly packed pair of
2 single-precision floats); the offset of `position` is 0, the offset of
`texcoord` is 16, and the total size (stride when arrayed) of the record
is 32 bytes. -/
theorem vertex_layout_offsets_and_size :
    AAPLVertex.fields = [CType.vector_float3, CType.packed_float2] ∧
      fieldOffsets AAPLVertex.fields 0 = [0, 16] ∧
      structSize AAPLVertex.fields = 32 := by decide

/-- C2: in `AAPLUniforms` the fields appear in the order `cameraPos`,
`modelMatrix`, `modelViewProjectionMatrix`, `normalMatrix`; the offset of
`cameraPos` is 0, each 4x4 single-precision matrix occupies 64 bytes, and
the 3x3 single-precision matrix occupies 48 bytes, three columns of
16 bytes each. -/
theorem uniforms_field_order_and_sizes :
    AAPLUniforms.fields =
        [CType.vector_float3, CType.matrix_float4x4, CType.matrix_float4x4,
          CType.matrix_float3x3] ∧
      (fieldOffsets AAPLUniforms.fields 0).getD 0 0 = 0 ∧
      CType.sizeof CType.matrix_float4x4 = 64 ∧
      CType.sizeof CType.matrix_float3x3 = 48 ∧
      CType.sizeof CType.matrix_float3x3 = 3 * 16 := by decide

/-- C3: the enumerators of `AAPLArgumentBufferBufferID` take exactly the
values ICB = 0, uniform buffer = 1, depth = 2, vertex buffer = 3 and
vertex-count buffer = 50; the first four are assigned contiguously from
zero, and the vertex-count identifier is 50, not the next sequential
value 4. -/
theorem argument_buffer_field_ids :
    AAPLArgumentBufferBufferID.values = [0, 1, 2, 3, 50] ∧
      AAPLArgumentBufferIDICB = 0 ∧
      AAPLArgumentBufferIDUniformBuffer = 1 ∧
      AAPLArgumentBufferIDDepth = 2 ∧
      AAPLArgumentBufferIDVertexBuffer = 3 ∧
      AAPLArgumentBufferIDVertexNumBuffer = 50 ∧
      AAPLArgumentBufferIDVertexNumBuffer ≠ 4 := by decide

/-- C4: the maximum-shapes constant `AAPLNumShapes` equals 16. -/
theorem num_shapes_is_sixteen : AAPLNumShapes = 16 := rfl

/-- C5: the enumerators of `AAPLBufferIndex` take exactly the values
vertices = 0 and uniforms = 1. -/
theorem top_level_buffer_indices :
    AAPLBufferIndex.values = [0, 1] ∧
      AAPLBufferIndexVertices = 0 ∧ AAPLBufferIndexUniforms = 1 := by decide

/-- C6: `AAPLTextureIndex` contains exactly one enumerator, base color,
whose value is 0. -/
theorem texture_index_base_color_only :
    AAPLTextureIndex.values = [0] ∧ AAPLTextureIndexBaseColor = 0 := by decide

/-- C7: `AAPLVertexBufferIndexArgument` has the value 0; it is the first
(and only) enumerator of `AAPLVertexBufferIndex` and is declared without
an explicit initializer. -/
theorem vertex_stage_argument_buffer_slot :
    AAPLVertexBufferIndex.inits = [none] ∧
      AAPLVertexBufferIndex.values = [0] ∧
      AAPLVertexBufferIndexArgument = 0 := by decide

/-- C8: for every `AAPLVertex` and every `AAPLUniforms` record whose
lanes are 32-bit patterns, serializing the record to its bytes under the
declared layout and reinterpreting those bytes yields the original field
values. -/
theorem record_bytes_roundtrip :
    (∀ v : AAPLVertex, v.wf → AAPLVertex.ofBytes v.toBytes = v) ∧
      (∀ u : AAPLUniforms, u.wf → AAPLUniforms.ofBytes u.toBytes = u) :=
  ⟨vertexRoundtrip, uniformsRoundtrip⟩

/-- C8 witness: the round trip holds for the vertex with
`position = (1, 2, 3)`, `texcoord = (0.25, 0.75)` and for the uniforms
record with identity matrices. -/
theorem record_bytes_roundtrip_witness :
    AAPLVertex.wf exampleVertex ∧ AAPLUniforms.wf identityUniforms ∧
      AAPLVertex.ofBytes exampleVertex.toBytes = exampleVertex ∧
      AAPLUniforms.ofBytes identityUniforms.toBytes = identityUniforms :=
  ⟨by decide, by decide, record_bytes_roundtrip.1 exampleVertex (by decide),
    record_bytes_roundtrip.2 identityUniforms (by decide)⟩

/-- C9: the total size of `AAPLUniforms` is 192 bytes, with field offsets
`cameraPos` = 0, `modelMatrix` = 16, `modelViewProjectionMatrix` = 80 and
`normalMatrix` = 144 (`cameraPos` occupies a 16-byte aligned slot); an
array of `AAPLNumShapes` such records occupies 16 * 192 = 3072 bytes. -/
theorem uniforms_offsets_and_total_size :
    fieldOffsets AAPLUniforms.fields 0 = [0, 16, 80, 144] ∧
      structSize AAPLUniforms.fields = 192 ∧
      AAPLNumShapes * structSize AAPLUniforms.fields = 3072 := by decide

/-- C10: within each binding registry all enumerator values are pairwise
distinct and non-negative; in particular the explicit value 50 of the
vertex-count identifier does not collide with the values 0 through 3 of
the other `AAPLArgumentBufferBufferID` enumerators. -/
theorem binding_registry_values_distinct :
    (AAPLBufferIndex.values.Pairwise (· ≠ ·) ∧
        ∀ v ∈ AAPLBufferIndex.values, 0 ≤ v) ∧
      (AAPLTextureIndex.values.Pairwise (· ≠ ·) ∧
        ∀ v ∈ AAPLTextureIndex.values, 0 ≤ v) ∧
      (AAPLArgumentBufferBufferID.values.Pairwise (· ≠ ·) ∧
        ∀ v ∈ AAPLArgumentBufferBufferID.values, 0 ≤ v) ∧
      (AAPLVertexBufferIndex.values.Pairwise (· ≠ ·) ∧
        ∀ v ∈ AAPLVertexBufferIndex.values, 0 ≤ v) ∧
      AAPLArgumentBufferIDVertexNumBuffer ∉
        AAPLArgumentBufferBufferID.values.take 4 := by decide
